import Mathlib

/-!
Verification of the CRM domain engine (`crm/models.py`, `crm/schema.py`).

The relational store is embedded as explicit lists of records; machine
state is passed explicitly.  Django `Decimal` money fields are declared
with `decimal_places=2`, so their values are exactly the integer multiples
of one hundredth: they are embedded as integer counts of hundredths
(cents), which keeps the fixed-point arithmetic exact.  Timestamps are
embedded as `Nat`; the ambient clock is an explicit `now` argument.
A Python `raise` inside a resolver is embedded as `Except.error`; a normal
`return` as `Except.ok`.
-/

-- Results of fallible operations are compared concretely in the
-- witnesses below; `Except` needs decidable equality for that.
deriving instance DecidableEq for Except

/-- A row of the `Customer` table (`crm/models.py`): `name`,
`email` (unique), optional `phone`.  The `id` is system assigned. -/
structure Customer where
  id : Nat
  name : String
  email : String
  phone : Option String
deriving Repr, DecidableEq

/-- A row of the `Product` table (`crm/models.py`): `name`,
`price` (`DecimalField(decimal_places=2)`, embedded as cents), `stock`. -/
structure Product where
  id : Nat
  name : String
  price : Int
  stock : Int
deriving Repr, DecidableEq

/-- A row of the `Order` table (`crm/models.py`): owning `customer`
reference, many-to-many `products` association (kept as the list of
associated product ids), `total_amount`, `order_date`. -/
structure Order where
  id : Nat
  customer_id : Nat
  product_ids : List Nat
  total_amount : Int
  order_date : Nat
deriving Repr, DecidableEq

/-- The relational store: the three tables plus the id sequence. -/
structure Store where
  customers : List Customer
  products : List Product
  orders : List Order
  next_id : Nat
deriving Repr, DecidableEq

/-- The emails currently present in the `Customer` table. -/
def Store.emails (st : Store) : List String :=
  st.customers.map (fun c => c.email)

/-! ### Regular-expression matching

`CreateCustomer.mutate` (`crm/schema.py` line 130) validates phones with
`re.match(r"^\+?1?\d{9,15}$|\d{3}-\d{3}-\d{4}$", phone)`.  We embed the
regular-expression language fragment this pattern uses and Python's
`re.match` semantics (anchored at the start of the string; `$` is embedded
as end-of-string — Python additionally lets `$` match before one trailing
newline, which no claim here exercises). -/

/-- Abstract syntax of the regex fragment used by the phone pattern:
empty word, a literal character, a digit class `\d`, concatenation,
alternation `|`, option `?`, and the end anchor `$`. -/
inductive RE where
  | eps : RE
  | lit : Char → RE
  | digit : RE
  | seq : RE → RE → RE
  | alt : RE → RE → RE
  | opt : RE → RE
  | eos : RE
deriving Repr, DecidableEq

/-- All suffixes of `cs` left over by some parse of `r` against a prefix of
`cs`: the standard all-results matcher for the fragment. -/
def rmatch : RE → List Char → List (List Char)
  | .eps, cs => [cs]
  | .lit c, cs =>
      match cs with
      | [] => []
      | d :: t => if d = c then [t] else []
  | .digit, cs =>
      match cs with
      | [] => []
      | d :: t => if d.isDigit then [t] else []
  | .seq a b, cs => (rmatch a cs).flatMap (rmatch b)
  | .alt a b, cs => rmatch a cs ++ rmatch b cs
  | .opt a, cs => rmatch a cs ++ [cs]
  | .eos, cs => if cs = [] then [[]] else []

/-- `re.match(r, s)` succeeds iff some parse of `r` starts at the beginning
of `s` (no implicit end anchor: the pattern itself carries `$`). -/
def re_match (r : RE) (s : String) : Bool :=
  !(rmatch r s.data).isEmpty

/-- `r` repeated exactly `n` times. -/
def reps (r : RE) : Nat → RE
  | 0 => .eps
  | n + 1 => .seq r (reps r n)

/-- `r?` repeated `n` times: matches between `0` and `n` copies of `r`. -/
def opt_reps (r : RE) : Nat → RE
  | 0 => .eps
  | n + 1 => .seq (.opt r) (opt_reps r n)

/-- The counted class `\d{lo,lo+extra}`, desugared as `lo` mandatory digits
followed by up to `extra` optional ones. -/
def digit_range (lo extra : Nat) : RE :=
  .seq (reps .digit lo) (opt_reps .digit extra)

/-- The phone pattern of `crm/schema.py` line 130:
`^\+?1?\d{9,15}$|\d{3}-\d{3}-\d{4}$` (under `re.match` both alternatives
are anchored at the start). -/
def phone_regex : RE :=
  .alt
    (.seq (.opt (.lit '+')) (.seq (.opt (.lit '1')) (.seq (digit_range 9 6) .eos)))
    (.seq (reps .digit 3)
      (.seq (.lit '-') (.seq (reps .digit 3) (.seq (.lit '-') (.seq (reps .digit 4) .eos)))))

/-- The phone check of `CreateCustomer.mutate`: `re.match` of the phone
pattern against the given string. -/
def validate_phone (s : String) : Bool :=
  re_match phone_regex s

/-- The guard `if input.phone:` of `crm/schema.py` line 129: the regex is
only consulted when the phone is present and non-empty (Python truthiness),
so an absent or empty phone passes. -/
def phone_format_ok (p : Option String) : Bool :=
  match p with
  | none => true
  | some s => if s.isEmpty then true else validate_phone s

/-! ### String helpers

Python's `in` test on strings (`"phone" in str(e)`) is a substring test. -/

/-- Whether `p` is a leading segment of `l`. -/
def starts_with : List Char → List Char → Bool
  | [], _ => true
  | _ :: _, [] => false
  | a :: p, b :: l => a = b && starts_with p l

/-- Whether `sub` occurs contiguously somewhere inside `l`. -/
def has_sub (sub : List Char) : List Char → Bool
  | [] => starts_with sub []
  | c :: t => starts_with sub (c :: t) || has_sub sub t

/-- Python's `sub in s` substring test. -/
def str_contains (sub s : String) : Bool :=
  has_sub sub.data s.data

/-! ### Model validation (`full_clean`)

`Customer.full_clean()` (Django model validation for `crm/models.py`)
checks the required `CharField` `name` (non-blank), the required
`EmailField` `email` (non-blank), and the `unique=True` constraint on
`email` by querying the table.  The `ValidationError` rendering is
embedded as a field-tagged message string; Django's finer e-mail format
validation and the 255/32-character length caps are not exercised by any
claim and are not embedded. -/

/-- Input to `CreateCustomer` / `BulkCreateCustomers`
(`CustomerInput` of `crm/schema.py`). -/
structure CustomerInput where
  name : String
  email : String
  phone : Option String
deriving Repr, DecidableEq

/-- `Customer.full_clean()` against the current table contents: blank-field
checks, then the unique-email check.  Returns the rendered
`ValidationError` text on failure. -/
def full_clean (st : Store) (name email : String) : Except String Unit :=
  if name = "" then
    .error "name: This field cannot be blank."
  else if email = "" then
    .error "email: This field cannot be blank."
  else if email ∈ st.emails then
    .error "email: Customer with this Email already exists."
  else
    .ok ()

/-- The customer row built and saved by a successful create: fields from
the input, id from the store's sequence. -/
def mk_customer (st : Store) (i : CustomerInput) : Customer :=
  { id := st.next_id, name := i.name, email := i.email, phone := i.phone }

/-- The store after inserting one customer row. -/
def insert_customer (st : Store) (i : CustomerInput) : Store :=
  { st with
      customers := st.customers ++ [mk_customer st i]
      next_id := st.next_id + 1 }

/-- The text of the `AttributeError` Django raises when `message_dict` is
read on a `ValidationError` that was built from a plain string rather than
a field dict (Python renders the two names inside quotes, which we omit).
`CreateCustomer.mutate` hits it when the phone-format `ValidationError` is
re-rendered: its text says `"Phone number ..."`, so the case-sensitive
`"phone" in str(e)` test fails and the handler falls through to
`f"Validation error: \x7be.message_dict\x7d"`, whose attribute access
raises. -/
def phone_attr_error : String :=
  "ValidationError object has no attribute error_dict"

/-- `CreateCustomer.mutate` (`crm/schema.py` lines 127-149): the phone
regex is checked first; a mismatch raises a `ValidationError` that the
`except ValidationError` handler turns into the `AttributeError` above
(see `phone_attr_error`).  Otherwise the row is built, `full_clean`-ed and
saved; a `full_clean` failure is re-raised as
`"Validation error: REASON"` (Django renders `message_dict` as a Python
dict; the embedding keeps the field-tagged reason without the brace
punctuation).  The `except IntegrityError` branch guards a check/insert
race and is unreachable in the sequential store.  A raised failure is
embedded as `Except.error`; the store component records the table state
after the call (unchanged on failure). -/
def create_customer (st : Store) (i : CustomerInput) :
    Except String (Customer × String) × Store :=
  if phone_format_ok i.phone = false then
    (.error phone_attr_error, st)
  else
    match full_clean st i.name i.email with
    | .error e =>
        if str_contains "phone" e then
          (.error "Phone number must be in the format +1234567890 or 123-456-7890", st)
        else
          (.error ("Validation error: " ++ e), st)
    | .ok _ =>
        (.ok (mk_customer st i, "Customer created successfully"), insert_customer st i)

/-- One loop iteration of `BulkCreateCustomers.mutate` (`crm/schema.py`
lines 168-181): build the row, `full_clean`, save; any exception is caught
and rendered as `"Error creating customer NAME: REASON"`.  Note the loop
performs no phone-regex check: only model validation runs. -/
def bulk_step (st : Store) (i : CustomerInput) : Except String Customer × Store :=
  match full_clean st i.name i.email with
  | .error e => (.error ("Error creating customer " ++ i.name ++ ": " ++ e), st)
  | .ok _ => (.ok (mk_customer st i), insert_customer st i)

/-- The result record of `BulkCreateCustomers`: created rows, error
strings, and the committed store. -/
structure BulkResult where
  customers : List Customer
  errors : List String
  store : Store
deriving Repr, DecidableEq

/-- `BulkCreateCustomers.mutate` (`crm/schema.py` lines 163-183): one
outer `transaction.atomic()` around a loop that tries each item and
appends either the created row or an error string.  Item validation fails
inside `full_clean`, before any write, so a failed item leaves the table
untouched and the loop continues; the outer transaction commits once at
the end with every successful row. -/
def bulk_create_customers (st : Store) : List CustomerInput → BulkResult
  | [] => { customers := [], errors := [], store := st }
  | i :: rest =>
      match bulk_step st i with
      | (.ok c, st') =>
          let r := bulk_create_customers st' rest
          { r with customers := c :: r.customers }
      | (.error e, st') =>
          let r := bulk_create_customers st' rest
          { r with errors := e :: r.errors }

/-! ### Products and orders -/

/-- Input to `CreateProduct` (`ProductInput` of `crm/schema.py`): required
`name` and `price`, optional `stock`. -/
structure ProductInput where
  name : String
  price : Int
  stock : Option Int
deriving Repr, DecidableEq

/-- `CreateProduct.mutate` (`crm/schema.py` lines 196-212): price must be
positive, the defaulted stock non-negative; then the row is saved (the
`stock or 0` fallback equals the defaulted value for non-negative stock).
`Product.full_clean()` re-checks nothing new at this point (the name is a
`CharField`, checked non-blank), and any `ValidationError` is re-raised as
`"Validation error: REASON"`. -/
def create_product (st : Store) (i : ProductInput) :
    Except String Product × Store :=
  if i.price ≤ 0 then
    (.error "Validation error: Price must be positive", st)
  else if (i.stock.getD 0) < 0 then
    (.error "Validation error: Stock cannot be negative", st)
  else if i.name = "" then
    (.error "Validation error: name: This field cannot be blank.", st)
  else
    let p : Product :=
      { id := st.next_id, name := i.name, price := i.price, stock := i.stock.getD 0 }
    (.ok p, { st with products := st.products ++ [p], next_id := st.next_id + 1 })

/-- Input to `CreateOrder` (`OrderInput` of `crm/schema.py`): required
`customer_id` and `product_ids`, optional `order_date`. -/
structure OrderInput where
  customer_id : Nat
  product_ids : List Nat
  order_date : Option Nat
deriving Repr, DecidableEq

/-- The rows of the `Product` table whose id occurs in `ids`
(`Product.objects.filter(id__in=ids)`): each stored row appears at most
once, whatever the multiplicity in `ids`. -/
def products_by_ids (st : Store) (ids : List Nat) : List Product :=
  st.products.filter (fun p => ids.contains p.id)

/-- `CreateOrder.mutate` (`crm/schema.py` lines 225-250): look up the
customer (`Customer.DoesNotExist` is re-raised as `"Customer not found"`),
require a non-empty `product_ids`, require every id to resolve (the
resolved set and the requested list must have equal length — note this
also rejects duplicate valid ids), then create the order with
`total_amount` the sum of the resolved `Decimal` prices.  The row's
`order_date` comes from the model default `timezone.now`: the
caller-supplied `input.order_date` is never read by the mutate body.
The trailing `except Exception` re-raises with the same text. -/
def create_order (st : Store) (i : OrderInput) (now : Nat) :
    Except String Order × Store :=
  match st.customers.find? (fun c => c.id = i.customer_id) with
  | none => (.error "Customer not found", st)
  | some c =>
    if i.product_ids.isEmpty then
      (.error "At least one product must be selected", st)
    else
      let products := products_by_ids st i.product_ids
      if products.length ≠ i.product_ids.length then
        (.error "Some product IDs are invalid", st)
      else
        let total : Int := (products.map (fun p => p.price)).sum
        let o : Order :=
          { id := st.next_id, customer_id := c.id,
            product_ids := products.map (fun p => p.id),
            total_amount := total, order_date := now }
        (.ok o, { st with orders := st.orders ++ [o], next_id := st.next_id + 1 })

/-! ### Filter engine

`crm/schema.py` imports `CustomerFilter`, `ProductFilter`, `OrderFilter`
from `crm/filters.py`, a file of this repository that is not among the
sources.  The filter semantics below are therefore modelled from the
spec (section 4.4) rather than translated from code. -/

/-- Case-insensitive substring test (the spec's `icontains`-style match). -/
def ci_contains (sub s : String) : Bool :=
  str_contains sub.toLower s.toLower

/-- Modelled from the spec: the customer filter of the missing
`crm/filters.py` — `name` and `email` are case-insensitive substring
predicates, `phone_pattern` a substring match against the phone; absent
fields impose no constraint and present fields are conjoined.  The spec's
`created_at` range fields act on a column the `Customer` model does not
define and are not modelled. -/
structure CustomerFilterInput where
  name : Option String
  email : Option String
  phone_pattern : Option String
deriving Repr, DecidableEq

/-- Modelled from the spec: conjoined application of the present customer
filter fields. -/
def customer_filter_apply (f : CustomerFilterInput) (l : List Customer) : List Customer :=
  l.filter (fun c =>
    (match f.name with | none => true | some s => ci_contains s c.name) &&
    (match f.email with | none => true | some s => ci_contains s c.email) &&
    (match f.phone_pattern with | none => true | some s => str_contains s (c.phone.getD "")))

/-- Modelled from the spec: the product filter of the missing
`crm/filters.py` — name substring, price and stock ranges, exact stock,
and the `low_stock` flag (stock below the fixed threshold 10). -/
structure ProductFilterInput where
  name : Option String
  price_gte : Option Int
  price_lte : Option Int
  stock_gte : Option Int
  stock_lte : Option Int
  stock : Option Int
  low_stock : Option Bool
deriving Repr, DecidableEq

/-- Modelled from the spec: conjoined application of the present product
filter fields. -/
def product_filter_apply (f : ProductFilterInput) (l : List Product) : List Product :=
  l.filter (fun p =>
    (match f.name with | none => true | some s => str_contains s p.name) &&
    (match f.price_gte with | none => true | some q => decide (q ≤ p.price)) &&
    (match f.price_lte with | none => true | some q => decide (p.price ≤ q)) &&
    (match f.stock_gte with | none => true | some n => decide (n ≤ p.stock)) &&
    (match f.stock_lte with | none => true | some n => decide (p.stock ≤ n)) &&
    (match f.stock with | none => true | some n => decide (p.stock = n)) &&
    (match f.low_stock with
     | none => true
     | some b => if b then decide (p.stock < 10) else true))

/-- Modelled from the spec: the order filter of the missing
`crm/filters.py` — amount and date ranges, `customer_name` substring on
the related customer, `product_id` exact match on an associated product,
and `product_name` substring on any associated product's name. -/
structure OrderFilterInput where
  total_amount_gte : Option Int
  total_amount_lte : Option Int
  order_date_gte : Option Nat
  order_date_lte : Option Nat
  customer_name : Option String
  product_name : Option String
  product_id : Option Nat
deriving Repr, DecidableEq

/-- The associated products of an order whose name contains `sub`. -/
def matching_products (st : Store) (o : Order) (sub : String) : List Product :=
  st.products.filter (fun p => o.product_ids.contains p.id && str_contains sub p.name)

/-- Modelled from the spec: conjoined application of the present order
filter fields.  The `product_name` predicate traverses the many-to-many
association: as in the underlying SQL join, the order row is produced
once per associated product that matches, so an order with several
matching products occurs several times before de-duplication. -/
def order_filter_apply (st : Store) (f : OrderFilterInput) (l : List Order) : List Order :=
  let l1 := l.filter (fun o =>
    (match f.total_amount_gte with | none => true | some q => decide (q ≤ o.total_amount)) &&
    (match f.total_amount_lte with | none => true | some q => decide (o.total_amount ≤ q)) &&
    (match f.order_date_gte with | none => true | some d => decide (d ≤ o.order_date)) &&
    (match f.order_date_lte with | none => true | some d => decide (o.order_date ≤ d)) &&
    (match f.customer_name with
     | none => true
     | some s =>
        match st.customers.find? (fun c => c.id = o.customer_id) with
        | none => false
        | some c => ci_contains s c.name) &&
    (match f.product_id with | none => true | some n => o.product_ids.contains n))
  match f.product_name with
  | none => l1
  | some sub => l1.flatMap (fun o => (matching_products st o sub).map (fun _ => o))

/-! ### Ordering and query resolvers (`crm/schema.py` lines 254-360) -/

/-- Insert `a` into `l` in front of the first element not below it. -/
def insert_le (le : α → α → Bool) (a : α) : List α → List α
  | [] => [a]
  | b :: l => if le a b then a :: b :: l else b :: insert_le le a l

/-- Stable insertion sort with respect to `le`, standing in for the
store's `ORDER BY`. -/
def sort_by (le : α → α → Bool) : List α → List α
  | [] => []
  | a :: l => insert_le le a (sort_by le l)

/-- The `valid_order_fields` whitelist of `resolve_all_customers`
(`crm/schema.py` lines 301-308). -/
def customer_order_whitelist : List String :=
  ["name", "email", "created_at", "-name", "-email", "-created_at"]

/-- The `valid_order_fields` whitelist of `resolve_all_products`
(`crm/schema.py` lines 325-334). -/
def product_order_whitelist : List String :=
  ["name", "price", "stock", "created_at", "-name", "-price", "-stock", "-created_at"]

/-- The `valid_order_fields` whitelist of `resolve_all_orders`
(`crm/schema.py` lines 351-356). -/
def order_order_whitelist : List String :=
  ["total_amount", "order_date", "-total_amount", "-order_date"]

/-- The text of the `FieldError` the store raises when `order_by` is given
a key that resolves to no column of the model (Django strips a leading
`-` before resolving and quotes the name, which we omit). -/
def field_error (field : String) : String :=
  "Cannot resolve keyword " ++
    (match field.data with
     | '-' :: t => String.mk t
     | _ => field) ++ " into field"

/-- `queryset.order_by(field)` for customers, as reachable through
`resolve_all_customers` (its whitelist admits `name`, `email`,
`created_at` and their `-`-prefixed forms).  `name`/`email` are real
columns and sort the rows; `created_at` names no column of the `Customer`
model (`crm/models.py` defines none), so the store raises a `FieldError`
when the queryset is evaluated — embedded, like every other raise, as
`Except.error`.  The error branch likewise covers any other non-column
key, none of which survives the whitelist. -/
def customer_order_by (field : String) (l : List Customer) :
    Except String (List Customer) :=
  if field = "name" then .ok (sort_by (fun a b => decide (a.name ≤ b.name)) l)
  else if field = "-name" then .ok (sort_by (fun a b => decide (b.name ≤ a.name)) l)
  else if field = "email" then .ok (sort_by (fun a b => decide (a.email ≤ b.email)) l)
  else if field = "-email" then .ok (sort_by (fun a b => decide (b.email ≤ a.email)) l)
  else .error (field_error field)

/-- `queryset.order_by(field)` for products, as reachable through
`resolve_all_products`; as with customers, the whitelisted `created_at`
names no `Product` column and raises a `FieldError`. -/
def product_order_by (field : String) (l : List Product) :
    Except String (List Product) :=
  if field = "name" then .ok (sort_by (fun a b => decide (a.name ≤ b.name)) l)
  else if field = "-name" then .ok (sort_by (fun a b => decide (b.name ≤ a.name)) l)
  else if field = "price" then .ok (sort_by (fun a b => decide (a.price ≤ b.price)) l)
  else if field = "-price" then .ok (sort_by (fun a b => decide (b.price ≤ a.price)) l)
  else if field = "stock" then .ok (sort_by (fun a b => decide (a.stock ≤ b.stock)) l)
  else if field = "-stock" then .ok (sort_by (fun a b => decide (b.stock ≤ a.stock)) l)
  else .error (field_error field)

/-- `queryset.order_by(field)` for orders; both whitelisted fields are
real columns. -/
def order_sort (field : String) (l : List Order) : List Order :=
  if field = "total_amount" then sort_by (fun a b => decide (a.total_amount ≤ b.total_amount)) l
  else if field = "-total_amount" then sort_by (fun a b => decide (b.total_amount ≤ a.total_amount)) l
  else if field = "order_date" then sort_by (fun a b => decide (a.order_date ≤ b.order_date)) l
  else if field = "-order_date" then sort_by (fun a b => decide (b.order_date ≤ a.order_date)) l
  else l

/-- The customer queryset after the `if filters:` step of
`resolve_all_customers`. -/
def customer_filtered (st : Store) (fs : Option CustomerFilterInput) : List Customer :=
  match fs with
  | none => st.customers
  | some f => customer_filter_apply f st.customers

/-- The product queryset after the `if filters:` step of
`resolve_all_products`. -/
def product_filtered (st : Store) (fs : Option ProductFilterInput) : List Product :=
  match fs with
  | none => st.products
  | some f => product_filter_apply f st.products

/-- The order queryset after the `if filters:` step of
`resolve_all_orders`. -/
def order_filtered (st : Store) (fs : Option OrderFilterInput) : List Order :=
  match fs with
  | none => st.orders
  | some f => order_filter_apply st f st.orders

/-- `Query.resolve_all_customers` (`crm/schema.py` lines 290-312): filter,
then order only when `order_by` is in the whitelist.  The result is what
the caller observes once the lazy queryset is evaluated: the row list, or
the raised `FieldError` when the whitelisted but column-less `created_at`
key was passed to `order_by`. -/
def resolve_all_customers (st : Store) (fs : Option CustomerFilterInput)
    (ob : Option String) : Except String (List Customer) :=
  let qs := customer_filtered st fs
  match ob with
  | none => .ok qs
  | some o => if o ∈ customer_order_whitelist then customer_order_by o qs else .ok qs

/-- `Query.resolve_all_products` (`crm/schema.py` lines 314-338); the
result is observed as for `resolve_all_customers`. -/
def resolve_all_products (st : Store) (fs : Option ProductFilterInput)
    (ob : Option String) : Except String (List Product) :=
  let qs := product_filtered st fs
  match ob with
  | none => .ok qs
  | some o => if o ∈ product_order_whitelist then product_order_by o qs else .ok qs

/-- `Query.resolve_all_orders` (`crm/schema.py` lines 340-360): filter,
order only when whitelisted, and always `.distinct()` on return
(embedded as row de-duplication). -/
def resolve_all_orders (st : Store) (fs : Option OrderFilterInput)
    (ob : Option String) : List Order :=
  let qs := order_filtered st fs
  let qs :=
    match ob with
    | none => qs
    | some o => if o ∈ order_order_whitelist then order_sort o qs else qs
  qs.dedup

/-! ### Explicit phone shapes

Closed-form descriptions of the two phone languages: the one the code's
pattern `^\+?1?\d{9,15}$|\d{3}-\d{3}-\d{4}$` actually accepts, and the one
the spec claims (`^\+\d{7,15}$` or `^\d{3}-\d{3}-\d{4}$`). -/

/-- Every character is an ASCII digit. -/
def all_digits (cs : List Char) : Bool :=
  cs.all (fun c => c.isDigit)

/-- The language of `\d{9,15}`: digits only, between 9 and 15 of them. -/
def digits_9_15 (cs : List Char) : Bool :=
  all_digits cs && decide (9 ≤ cs.length) && decide (cs.length ≤ 15)

/-- The language of `1?\d{9,15}`. -/
def opt1_digits (cs : List Char) : Bool :=
  digits_9_15 cs ||
    (match cs with
     | c :: t => c = '1' && digits_9_15 t
     | [] => false)

/-- The language of `\+?1?\d{9,15}`: what the first alternative of the
code's pattern accepts. -/
def code_intl (cs : List Char) : Bool :=
  opt1_digits cs ||
    (match cs with
     | c :: t => c = '+' && opt1_digits t
     | [] => false)

/-- The language of `\d{3}-\d{3}-\d{4}`: the local shape, shared by the
code's pattern and the spec's. -/
def local_shape (cs : List Char) : Bool :=
  match cs with
  | [a, b, c, d1, d, e, f, d2, g, h, i, j] =>
      d1 = '-' && d2 = '-' && all_digits [a, b, c, d, e, f, g, h, i, j]
  | _ => false

/-- The spec's claimed international shape `^\+\d{7,15}$`: a mandatory
`+` followed by 7 to 15 digits. -/
def spec_intl (cs : List Char) : Bool :=
  match cs with
  | c :: t => c = '+' && all_digits t && decide (7 ≤ t.length) && decide (t.length ≤ 15)
  | [] => false

/-- The phone predicate exactly as the spec words it (for comparison with
the code's `validate_phone`): empty is valid, otherwise the string must
match `^\+\d{7,15}$` or `^\d{3}-\d{3}-\d{4}$`. -/
def spec_phone_valid (s : String) : Bool :=
  s.isEmpty || spec_intl s.data || local_shape s.data

/-! ### Concrete example data

Small stores and inputs used to instantiate the theorems below. -/

/-- The empty store. -/
def empty_store : Store :=
  { customers := [], products := [], orders := [], next_id := 1 }

/-- C1 scenario: first item of the batch. -/
def cex1_a : CustomerInput :=
  { name := "Alice", email := "alice@example.com", phone := none }

/-- C1 scenario: second item, duplicating the first item's email. -/
def cex1_b : CustomerInput :=
  { name := "Bob", email := "alice@example.com", phone := none }

/-- C1 scenario: third item. -/
def cex1_c : CustomerInput :=
  { name := "Carol", email := "carol@example.com", phone := none }

/-- C2 scenario: one customer and two products priced 10.00 and 5.50
(1000 and 550 cents). -/
def c2_store : Store :=
  { customers := [{ id := 1, name := "Ann", email := "ann@example.com", phone := none }],
    products :=
      [{ id := 1, name := "P1", price := 1000, stock := 5 },
       { id := 2, name := "P2", price := 550, stock := 5 }],
    orders := [], next_id := 3 }

/-- C2 scenario: order both products for customer 1. -/
def c2_input : OrderInput :=
  { customer_id := 1, product_ids := [1, 2], order_date := none }

/-- C4 scenario: one customer, one product. -/
def c4_store : Store :=
  { customers := [{ id := 1, name := "Ann", email := "ann@example.com", phone := none }],
    products := [{ id := 1, name := "P1", price := 1000, stock := 5 }],
    orders := [], next_id := 2 }

/-- C4 scenario: one valid product id and the invalid id 999. -/
def c4_input : OrderInput :=
  { customer_id := 1, product_ids := [1, 999], order_date := none }

/-- C5 scenario: a customer input whose phone matches neither accepted
shape. -/
def c5_bad_phone : CustomerInput :=
  { name := "Dan", email := "dan@example.com", phone := some "12ab" }

/-- C5 scenario: a product input with a non-positive price. -/
def c5_bad_product : ProductInput :=
  { name := "Gadget", price := 0, stock := some 3 }

/-- C5 scenario: an order input naming a customer that does not exist in
the empty store. -/
def c5_bad_order : OrderInput :=
  { customer_id := 42, product_ids := [1], order_date := none }

/-- C6 scenario: one customer, one product. -/
def c6_store : Store :=
  { customers := [{ id := 1, name := "Ann", email := "ann@example.com", phone := none }],
    products := [{ id := 1, name := "P1", price := 1000, stock := 5 }],
    orders := [], next_id := 2 }

/-- C6 scenario: the caller supplies an explicit order date of 999. -/
def c6_input : OrderInput :=
  { customer_id := 1, product_ids := [1], order_date := some 999 }

/-- C7 scenario: a store already holding the email `eve@example.com`. -/
def c7_store : Store :=
  { customers := [{ id := 1, name := "Eve", email := "eve@example.com", phone := none }],
    products := [], orders := [], next_id := 2 }

/-- C7 scenario: a second customer with the already-used email. -/
def c7_dup_input : CustomerInput :=
  { name := "Eve2", email := "eve@example.com", phone := none }

/-- C8 scenario: two customers, two products, two orders, stored out of
order with respect to every sortable field. -/
def c8_store : Store :=
  { customers :=
      [{ id := 1, name := "Zoe", email := "zoe@example.com", phone := none },
       { id := 2, name := "Amy", email := "amy@example.com", phone := none }],
    products :=
      [{ id := 1, name := "Zither", price := 3000, stock := 9 },
       { id := 2, name := "Anvil", price := 500, stock := 2 }],
    orders :=
      [{ id := 1, customer_id := 1, product_ids := [1], total_amount := 3000, order_date := 8 },
       { id := 2, customer_id := 2, product_ids := [2], total_amount := 500, order_date := 3 }],
    next_id := 3 }

/-- C9 scenario: an order associated with two products whose names both
contain `"wid"`, plus a non-matching order. -/
def c9_store : Store :=
  { customers := [{ id := 1, name := "Ann", email := "ann@example.com", phone := none }],
    products :=
      [{ id := 1, name := "widget small", price := 100, stock := 1 },
       { id := 2, name := "widget large", price := 200, stock := 1 },
       { id := 3, name := "bolt", price := 300, stock := 1 }],
    orders :=
      [{ id := 1, customer_id := 1, product_ids := [1, 2], total_amount := 300, order_date := 1 },
       { id := 2, customer_id := 1, product_ids := [3], total_amount := 300, order_date := 2 }],
    next_id := 3 }

/-- An order filter whose only present field is `product_name`. -/
def product_name_only (sub : String) : OrderFilterInput :=
  { total_amount_gte := none, total_amount_lte := none,
    order_date_gte := none, order_date_lte := none,
    customer_name := none, product_name := some sub, product_id := none }

/-- C9 scenario: the matching order (two of its products match). -/
def c9_order : Order :=
  { id := 1, customer_id := 1, product_ids := [1, 2], total_amount := 300, order_date := 1 }

/-- C2 scenario: the order the successful call stores. -/
def c2_result_order : Order :=
  { id := 3, customer_id := 1, product_ids := [1, 2],
    total_amount := 1550, order_date := 0 }

/-- C2 scenario: the store after the successful call. -/
def c2_result_store : Store :=
  { c2_store with orders := [c2_result_order], next_id := 4 }

/-! ## Theorems -/

/-- Inserting a customer appends its email to the email column. -/
theorem emails_insert (st : Store) (i : CustomerInput) :
    (insert_customer st i).emails = st.emails ++ [i.email] := by
  simp [insert_customer, Store.emails, mk_customer]


/-- A successful `full_clean` certifies the email is not yet in the
table, so the insert keeps the email column duplicate-free. -/
theorem nodup_emails_insert (st : Store) (i : CustomerInput)
    (hok : full_clean st i.name i.email = .ok ())
    (h : st.emails.Nodup) : (insert_customer st i).emails.Nodup := by
  have hmem : i.email ∉ st.emails := by
    intro hc
    simp only [full_clean] at hok
    repeat' split at hok
    all_goals exact Except.noConfusion hok
  rw [emails_insert]
  simp [List.nodup_append, h, hmem]

/-- C1: the claim expects the second item's failure to be reported as an
indexed `"Row 2: REASON"` message; on the 3-item batch whose second item
repeats the first item's email, the code instead reports
`"Error creating customer Bob: REASON"` — no error mentions `"Row 2"`
even though the rest of the scenario (2 created rows, 1 error) matches. -/
theorem bulk_row_message_counterexample :
    (bulk_create_customers empty_store [cex1_a, cex1_b, cex1_c]).customers.length = 2
    ∧ (bulk_create_customers empty_store [cex1_a, cex1_b, cex1_c]).errors =
        ["Error creating customer Bob: email: Customer with this Email already exists."]
    ∧ str_contains "Row 2"
        "Error creating customer Bob: email: Customer with this Email already exists." = false
    ∧ (bulk_create_customers empty_store [cex1_a, cex1_b, cex1_c]).store.customers.length = 2 := by
  decide

/-- C1 (amended): in a 3-item `BulkCreateCustomers` batch whose second
item fails model validation (e.g. a duplicate email) while the first and
third pass, the failed item is skipped — validation precedes any write,
so no per-item savepoint is needed — the error list holds the single
message `"Error creating customer NAME: REASON"` (name-indexed, not
row-indexed), the outer transaction commits, and exactly the two
successful rows are added to the store. -/
theorem bulk_three_items_second_duplicate (st : Store) (a b c : CustomerInput) (e : String)
    (h1 : full_clean st a.name a.email = .ok ())
    (h2 : full_clean (insert_customer st a) b.name b.email = .error e)
    (h3 : full_clean (insert_customer st a) c.name c.email = .ok ()) :
    bulk_create_customers st [a, b, c] =
      { customers := [mk_customer st a, mk_customer (insert_customer st a) c],
        errors := ["Error creating customer " ++ b.name ++ ": " ++ e],
        store := insert_customer (insert_customer st a) c } := by
  simp [bulk_create_customers, bulk_step, h1, h2, h3]

/-- C1 (amended) witness: the concrete 3-item batch of the
counterexample, instantiating the amended theorem. -/
theorem bulk_three_items_second_duplicate_witness :
    bulk_create_customers empty_store [cex1_a, cex1_b, cex1_c] =
      { customers :=
          [mk_customer empty_store cex1_a,
           mk_customer (insert_customer empty_store cex1_a) cex1_c],
        errors := ["Error creating customer " ++ cex1_b.name ++ ": " ++
          "email: Customer with this Email already exists."],
        store := insert_customer (insert_customer empty_store cex1_a) cex1_c } :=
  bulk_three_items_second_duplicate empty_store cex1_a cex1_b cex1_c
    "email: Customer with this Email already exists."
    (by decide) (by decide) (by decide)

/-- C2: whenever `CreateOrder` succeeds, the stored `total_amount` is
exactly the sum of the resolved products' prices — computed in exact
fixed-point (integer cents) arithmetic, with no floating-point rounding. -/
theorem create_order_total_exact (st : Store) (i : OrderInput) (now : Nat)
    (o : Order) (st2 : Store)
    (h : create_order st i now = (.ok o, st2)) :
    o.total_amount = ((products_by_ids st i.product_ids).map (fun p => p.price)).sum := by
  simp only [create_order] at h
  split at h
  · exact Except.noConfusion (congrArg Prod.fst h)
  · split at h
    · exact Except.noConfusion (congrArg Prod.fst h)
    · split at h
      · exact Except.noConfusion (congrArg Prod.fst h)
      · have h1 := congrArg Prod.fst h
        simp only [Except.ok.injEq] at h1
        rw [← h1]

/-- C2 witness: for products priced 10.00 and 5.50 (1000 and 550 cents)
the created order's total is exactly 15.50 (1550 cents). -/
theorem create_order_total_exact_witness :
    create_order c2_store c2_input 0 = (.ok c2_result_order, c2_result_store)
    ∧ c2_result_order.total_amount =
        ((products_by_ids c2_store c2_input.product_ids).map (fun p => p.price)).sum
    ∧ c2_result_order.total_amount = 1000 + 550 :=
  ⟨by decide,
   create_order_total_exact c2_store c2_input 0 c2_result_order c2_result_store (by decide),
   by decide⟩

/-- C10: every `BulkCreateCustomers` input item contributes exactly one
outcome — a created customer or an error string — so the two result list
lengths sum to the input length; and the created customers keep the
relative order of their input items (their email column is a sublist of
the input email column). -/
theorem bulk_outcome_per_item (st : Store) (input : List CustomerInput) :
    (bulk_create_customers st input).customers.length
      + (bulk_create_customers st input).errors.length = input.length
    ∧ List.Sublist ((bulk_create_customers st input).customers.map (fun c => c.email))
        (input.map (fun i => i.email)) := by
  induction input generalizing st with
  | nil => simp [bulk_create_customers]
  | cons i rest ih =>
    cases hfc : full_clean st i.name i.email with
    | ok u =>
      cases u
      obtain ⟨hl, hs⟩ := ih (insert_customer st i)
      constructor
      · simp only [bulk_create_customers, bulk_step, hfc, List.length_cons]
        omega
      · simp only [bulk_create_customers, bulk_step, hfc, List.map_cons]
        simp [mk_customer]
        exact hs
    | error e =>
      obtain ⟨hl, hs⟩ := ih st
      constructor
      · simp only [bulk_create_customers, bulk_step, hfc, List.length_cons]
        omega
      · simp only [bulk_create_customers, bulk_step, hfc, List.map_cons]
        exact List.Sublist.cons _ hs

/-- C4: the claim expects missing product ids to be reported as
`"Invalid product ID(s): ..."` listing the sorted invalid ids; on a
request naming the nonexistent id 999 the code instead raises the fixed
message `"Some product IDs are invalid"`, which names no id at all. -/
theorem invalid_product_ids_message_counterexample :
    create_order c4_store c4_input 0 = (.error "Some product IDs are invalid", c4_store)
    ∧ str_contains "999" "Some product IDs are invalid" = false
    ∧ str_contains "Invalid product ID" "Some product IDs are invalid" = false := by
  decide

/-- C4 (amended): whenever a `CreateOrder` request passes the customer
lookup and the non-empty check but some requested product id does not
resolve (the resolved rows and the requested list differ in length), the
call raises the fixed message `"Some product IDs are invalid"` — the
invalid ids are not listed — and the store is unchanged. -/
theorem create_order_invalid_ids_fixed_message (st : Store) (i : OrderInput) (now : Nat)
    (hc : (st.customers.find? (fun c => c.id = i.customer_id)).isSome = true)
    (hne : i.product_ids.isEmpty = false)
    (hlen : (products_by_ids st i.product_ids).length ≠ i.product_ids.length) :
    create_order st i now = (.error "Some product IDs are invalid", st) := by
  obtain ⟨c, hfc⟩ := Option.isSome_iff_exists.mp hc
  simp [create_order, hfc, hne, hlen]

/-- C4 (amended) witness: the concrete request of the counterexample,
instantiating the amended theorem. -/
theorem create_order_invalid_ids_fixed_message_witness :
    create_order c4_store c4_input 0 = (.error "Some product IDs are invalid", c4_store) :=
  create_order_invalid_ids_fixed_message c4_store c4_input 0
    (by decide) (by decide) (by decide)

/-- C5: the claim expects every validation failure to come back as a
structured result with a null entity and an errors list; a `CreateCustomer`
call with a malformed phone instead raises (the result type of the
mutation carries no errors field at all, and the raise surfaces as an
`Except.error`, not as an `ok` payload). -/
theorem structured_errors_counterexample :
    (create_customer empty_store c5_bad_phone).1 = .error phone_attr_error := by
  decide

/-- C5 (amended): the single-row mutations `CreateCustomer`,
`CreateProduct` and `CreateOrder` all surface validation failures by
raising an exception carrying one message (embedded as `Except.error`)
while leaving the store unchanged; only `BulkCreateCustomers` returns a
structured errors list. -/
theorem single_mutations_raise_on_validation_failure :
    (∀ st i, phone_format_ok i.phone = false →
        create_customer st i = (.error phone_attr_error, st))
    ∧ (∀ st i, i.price ≤ 0 →
        create_product st i = (.error "Validation error: Price must be positive", st))
    ∧ (∀ st i now, st.customers.find? (fun c => c.id = i.customer_id) = none →
        create_order st i now = (.error "Customer not found", st)) := by
  refine ⟨fun st i h => ?_, fun st i h => ?_, fun st i now h => ?_⟩
  · simp [create_customer, h]
  · simp [create_product, if_pos h]
  · simp [create_order, h]

/-- C5 (amended) witness: a bad phone, a non-positive price and a missing
customer, each raising the corresponding message on the empty store. -/
theorem single_mutations_raise_witness :
    create_customer empty_store c5_bad_phone = (.error phone_attr_error, empty_store)
    ∧ create_product empty_store c5_bad_product =
        (.error "Validation error: Price must be positive", empty_store)
    ∧ create_order empty_store c5_bad_order 0 = (.error "Customer not found", empty_store) :=
  ⟨single_mutations_raise_on_validation_failure.1 empty_store c5_bad_phone (by decide),
   single_mutations_raise_on_validation_failure.2.1 empty_store c5_bad_product (by decide),
   single_mutations_raise_on_validation_failure.2.2 empty_store c5_bad_order 0 (by decide)⟩

/-- C6: the claim expects a caller-supplied orderDate to be stored; the
code never reads `input.order_date` (schema.py line 243 creates the row
without it), so with the clock at 5 and a supplied date of 999 the stored
date is 5. -/
theorem order_date_override_counterexample :
    c6_input.order_date = some 999
    ∧ create_order c6_store c6_input 5 =
        (.ok { id := 2, customer_id := 1, product_ids := [1],
               total_amount := 1000, order_date := 5 },
         { c6_store with
             orders := [{ id := 2, customer_id := 1, product_ids := [1],
                          total_amount := 1000, order_date := 5 }],
             next_id := 3 })
    ∧ (5 : Nat) ≠ 999 := by
  decide

/-- C6 (amended): for every successful `CreateOrder` call the stored
order's `order_date` is the creation-time clock value (the model default
`timezone.now`); the caller-supplied `orderDate` is accepted as input but
ignored. -/
theorem order_date_is_creation_time (st : Store) (i : OrderInput) (now : Nat)
    (o : Order) (st2 : Store)
    (h : create_order st i now = (.ok o, st2)) :
    o.order_date = now := by
  simp only [create_order] at h
  split at h
  · exact Except.noConfusion (congrArg Prod.fst h)
  · split at h
    · exact Except.noConfusion (congrArg Prod.fst h)
    · split at h
      · exact Except.noConfusion (congrArg Prod.fst h)
      · have h1 := congrArg Prod.fst h
        simp only [Except.ok.injEq] at h1
        rw [← h1]

/-- C6 (amended) witness: the concrete call of the counterexample,
instantiating the amended theorem. -/
theorem order_date_is_creation_time_witness :
    ({ id := 2, customer_id := 1, product_ids := [1],
       total_amount := 1000, order_date := 5 } : Order).order_date = 5 :=
  order_date_is_creation_time c6_store c6_input 5
    { id := 2, customer_id := 1, product_ids := [1],
      total_amount := 1000, order_date := 5 }
    ({ c6_store with
         orders := [{ id := 2, customer_id := 1, product_ids := [1],
                      total_amount := 1000, order_date := 5 }],
         next_id := 3 })
    (by decide)

/-- C7: no two customers ever share an email — both customer-creating
operations preserve a duplicate-free email column (the `unique=True`
constraint checked by `full_clean`), and a second create with an
already-used email raises a duplicate-email message while leaving the
store unchanged. -/
theorem email_uniqueness_invariant :
    (∀ st i, st.emails.Nodup → ((create_customer st i).2).emails.Nodup)
    ∧ (∀ st input, st.emails.Nodup →
        ((bulk_create_customers st input).store).emails.Nodup)
    ∧ (∀ st i, phone_format_ok i.phone = true → i.name ≠ "" → i.email ≠ "" →
        i.email ∈ st.emails →
        create_customer st i =
          (.error "Validation error: email: Customer with this Email already exists.", st)) := by
  refine ⟨fun st i h => ?_, fun st input => ?_, fun st i hp hn he hm => ?_⟩
  · by_cases hp : phone_format_ok i.phone = false
    · simpa [create_customer, hp] using h
    · cases hfc : full_clean st i.name i.email with
      | error e =>
        have h2 : (create_customer st i).2 = st := by
          simp only [create_customer, if_neg hp, hfc]
          split <;> rfl
        rw [h2]
        exact h
      | ok u =>
        cases u
        simpa [create_customer, hp, hfc] using nodup_emails_insert st i hfc h
  · induction input generalizing st with
    | nil => intro h; simpa [bulk_create_customers] using h
    | cons i rest ih =>
      intro h
      cases hfc : full_clean st i.name i.email with
      | ok u =>
        cases u
        simpa [bulk_create_customers, bulk_step, hfc] using
          ih (insert_customer st i) (nodup_emails_insert st i hfc h)
      | error e =>
        simpa [bulk_create_customers, bulk_step, hfc] using ih st h
  · have hdup : full_clean st i.name i.email =
        .error "email: Customer with this Email already exists." := by
      simp [full_clean, hn, he, hm]
    have hsub : str_contains "phone"
        "email: Customer with this Email already exists." = false := by decide
    simp [create_customer, hp, hdup, hsub]

/-- C7 witness: the store already holding `eve@example.com`; the retry
with the same email raises the duplicate message and changes nothing,
and both operations keep the email column duplicate-free. -/
theorem email_uniqueness_invariant_witness :
    ((create_customer c7_store c7_dup_input).2).emails.Nodup
    ∧ ((bulk_create_customers c7_store [c7_dup_input]).store).emails.Nodup
    ∧ create_customer c7_store c7_dup_input =
        (.error "Validation error: email: Customer with this Email already exists.", c7_store) :=
  ⟨email_uniqueness_invariant.1 c7_store c7_dup_input (by decide),
   email_uniqueness_invariant.2.1 c7_store [c7_dup_input] (by decide),
   email_uniqueness_invariant.2.2 c7_store c7_dup_input
     (by decide) (by decide) (by decide) (by decide)⟩

/-- C8: the claim has every whitelisted `orderBy` value apply an ordering
and only non-whitelisted values be ignored, with no error ever produced;
but the customer and product whitelists contain `created_at`/`-created_at`,
which name no column of the `Customer`/`Product` models — at
`orderBy = "created_at"` the program hands the key to `order_by` and the
store raises a `FieldError` instead of returning any collection. -/
theorem order_by_created_at_counterexample :
    ("created_at" ∈ customer_order_whitelist)
    ∧ resolve_all_customers c8_store none (some "created_at") =
        .error "Cannot resolve keyword created_at into field"
    ∧ ("-created_at" ∈ product_order_whitelist)
    ∧ resolve_all_products c8_store none (some "-created_at") =
        .error "Cannot resolve keyword created_at into field" := by
  decide

/-- C8 (amended): every `orderBy` value outside an entity's whitelist is
silently ignored — the (filtered) collection comes back unchanged and
without error; a whitelisted value naming a real model column is applied
as a sort; the customer and product whitelists additionally contain
`created_at`/`-created_at`, which name no model column, and those keys
make the query fail with a `FieldError` instead of applying an ordering.
The order whitelist holds only real columns, so whitelisted order keys
always sort (followed by `.distinct()`). -/
theorem order_by_whitelist_policy :
    (∀ st fs ob, ob ∉ customer_order_whitelist →
        resolve_all_customers st fs (some ob) = .ok (customer_filtered st fs))
    ∧ (∀ st fs ob, ob ∈ customer_order_whitelist →
        ob ≠ "created_at" → ob ≠ "-created_at" →
        ∃ l, customer_order_by ob (customer_filtered st fs) = .ok l ∧
          resolve_all_customers st fs (some ob) = .ok l)
    ∧ (∀ st fs ob, ob = "created_at" ∨ ob = "-created_at" →
        resolve_all_customers st fs (some ob) = .error (field_error ob))
    ∧ (∀ st fs ob, ob ∉ product_order_whitelist →
        resolve_all_products st fs (some ob) = .ok (product_filtered st fs))
    ∧ (∀ st fs ob, ob ∈ product_order_whitelist →
        ob ≠ "created_at" → ob ≠ "-created_at" →
        ∃ l, product_order_by ob (product_filtered st fs) = .ok l ∧
          resolve_all_products st fs (some ob) = .ok l)
    ∧ (∀ st fs ob, ob = "created_at" ∨ ob = "-created_at" →
        resolve_all_products st fs (some ob) = .error (field_error ob))
    ∧ (∀ st fs ob, ob ∉ order_order_whitelist →
        resolve_all_orders st fs (some ob) = (order_filtered st fs).dedup)
    ∧ (∀ st fs ob, ob ∈ order_order_whitelist →
        resolve_all_orders st fs (some ob) = (order_sort ob (order_filtered st fs)).dedup) := by
  refine ⟨fun st fs ob h => ?_, fun st fs ob h h1 h2 => ?_, fun st fs ob h => ?_,
    fun st fs ob h => ?_, fun st fs ob h h1 h2 => ?_, fun st fs ob h => ?_,
    fun st fs ob h => ?_, fun st fs ob h => ?_⟩
  · simp [resolve_all_customers, h]
  · simp only [customer_order_whitelist, List.mem_cons, List.not_mem_nil, or_false] at h
    rcases h with rfl | rfl | rfl | rfl | rfl | rfl
    · exact ⟨_, rfl, rfl⟩
    · exact ⟨_, rfl, rfl⟩
    · exact absurd rfl h1
    · exact ⟨_, rfl, rfl⟩
    · exact ⟨_, rfl, rfl⟩
    · exact absurd rfl h2
  · rcases h with rfl | rfl
    · rfl
    · rfl
  · simp [resolve_all_products, h]
  · simp only [product_order_whitelist, List.mem_cons, List.not_mem_nil, or_false] at h
    rcases h with rfl | rfl | rfl | rfl | rfl | rfl | rfl | rfl
    · exact ⟨_, rfl, rfl⟩
    · exact ⟨_, rfl, rfl⟩
    · exact ⟨_, rfl, rfl⟩
    · exact absurd rfl h1
    · exact ⟨_, rfl, rfl⟩
    · exact ⟨_, rfl, rfl⟩
    · exact ⟨_, rfl, rfl⟩
    · exact absurd rfl h2
  · rcases h with rfl | rfl
    · rfl
    · rfl
  · simp [resolve_all_orders, h]
  · simp [resolve_all_orders, h]

/-- C8 (amended) witness: on a concrete store, the unknown keys
`"bogus"`, `"height"`, `"id"` leave each collection untouched; the
whitelisted real-column keys `"-name"`, `"price"`, `"-order_date"` sort
it; and the whitelisted but column-less `created_at` keys fail with the
`FieldError`. -/
theorem order_by_whitelist_policy_witness :
    resolve_all_customers c8_store none (some "bogus") =
        .ok (customer_filtered c8_store none)
    ∧ (∃ l, customer_order_by "-name" (customer_filtered c8_store none) = .ok l ∧
        resolve_all_customers c8_store none (some "-name") = .ok l)
    ∧ resolve_all_customers c8_store none (some "created_at") =
        .error (field_error "created_at")
    ∧ resolve_all_products c8_store none (some "height") =
        .ok (product_filtered c8_store none)
    ∧ (∃ l, product_order_by "price" (product_filtered c8_store none) = .ok l ∧
        resolve_all_products c8_store none (some "price") = .ok l)
    ∧ resolve_all_products c8_store none (some "-created_at") =
        .error (field_error "-created_at")
    ∧ resolve_all_orders c8_store none (some "id") = (order_filtered c8_store none).dedup
    ∧ resolve_all_orders c8_store none (some "-order_date") =
        (order_sort "-order_date" (order_filtered c8_store none)).dedup :=
  ⟨order_by_whitelist_policy.1 c8_store none "bogus" (by decide),
   order_by_whitelist_policy.2.1 c8_store none "-name" (by decide) (by decide) (by decide),
   order_by_whitelist_policy.2.2.1 c8_store none "created_at" (Or.inl rfl),
   order_by_whitelist_policy.2.2.2.1 c8_store none "height" (by decide),
   order_by_whitelist_policy.2.2.2.2.1 c8_store none "price"
     (by decide) (by decide) (by decide),
   order_by_whitelist_policy.2.2.2.2.2.1 c8_store none "-created_at" (Or.inr rfl),
   order_by_whitelist_policy.2.2.2.2.2.2.1 c8_store none "id" (by decide),
   order_by_whitelist_policy.2.2.2.2.2.2.2 c8_store none "-order_date" (by decide)⟩

/-- C9: when `allOrders` is filtered on a `product_name` substring — a
filter that joins through the product association and yields one row per
matching associated product — every matching stored order occurs exactly
once in the result, thanks to the resolver's final `.distinct()`. -/
theorem order_product_name_distinct (st : Store) (sub : String) (o : Order)
    (ho : o ∈ st.orders)
    (hp : ∃ p, p ∈ st.products ∧ p.id ∈ o.product_ids ∧ str_contains sub p.name = true) :
    (resolve_all_orders st (some (product_name_only sub)) none).count o = 1 := by
  have hres : resolve_all_orders st (some (product_name_only sub)) none =
      (st.orders.flatMap (fun o2 => (matching_products st o2 sub).map (fun _ => o2))).dedup := by
    simp [resolve_all_orders, order_filtered, order_filter_apply, product_name_only]
  rw [hres]
  have hmem : o ∈ st.orders.flatMap
      (fun o2 => (matching_products st o2 sub).map (fun _ => o2)) := by
    obtain ⟨p, hp1, hp2, hp3⟩ := hp
    refine List.mem_flatMap.mpr ⟨o, ho, ?_⟩
    refine List.mem_map.mpr ⟨p, ?_, rfl⟩
    simp [matching_products, List.mem_filter, hp1, hp3, hp2]
  exact List.count_eq_one_of_mem (List.nodup_dedup _) (List.mem_dedup.mpr hmem)

/-- C9 witness: the store whose order 1 carries two products both named
with the substring `"wid"`; the filtered result still lists order 1 once. -/
theorem order_product_name_distinct_witness :
    (resolve_all_orders c9_store (some (product_name_only "wid")) none).count c9_order = 1 :=
  order_product_name_distinct c9_store "wid" c9_order (by decide)
    ⟨{ id := 1, name := "widget small", price := 100, stock := 1 },
     by decide, by decide, by decide⟩

theorem rmatch_reps_digit (n : Nat) (cs : List Char) :
    rmatch (reps .digit n) cs =
      if (cs.take n).all (fun c => c.isDigit) = true ∧ n ≤ cs.length
      then [cs.drop n] else [] := by
  induction n generalizing cs with
  | zero => simp [reps, rmatch]
  | succ n ih =>
    cases cs with
    | nil => simp [reps, rmatch]
    | cons c t =>
      simp only [reps, rmatch, List.take_succ_cons, List.drop_succ_cons,
        List.all_cons, List.length_cons, Bool.and_eq_true, Nat.add_le_add_iff_right]
      by_cases hd : c.isDigit
      · simp [hd, ih, Nat.succ_le_succ_iff]
      · simp [hd]

theorem nil_mem_opt_reps_digit (n : Nat) (cs : List Char) :
    [] ∈ rmatch (opt_reps .digit n) cs ↔
      (all_digits cs = true ∧ cs.length ≤ n) := by
  induction n generalizing cs with
  | zero =>
    cases cs <;> simp [opt_reps, rmatch, all_digits]
  | succ n ih =>
    cases cs with
    | nil => simp [opt_reps, rmatch, ih, all_digits]
    | cons c t =>
      by_cases hd : c.isDigit
      · have h1 : rmatch (opt_reps .digit (n + 1)) (c :: t) =
            rmatch (opt_reps .digit n) t ++ rmatch (opt_reps .digit n) (c :: t) := by
          simp [opt_reps, rmatch, hd]
        rw [h1]
        simp only [List.mem_append, ih, all_digits, List.all_eq_true,
          List.forall_mem_cons, List.length_cons, hd, true_and]
        constructor
        · rintro (⟨ha, hl⟩ | ⟨ha, hl⟩)
          · exact ⟨ha, by omega⟩
          · exact ⟨ha, by omega⟩
        · rintro ⟨ha, hl⟩
          exact Or.inl ⟨ha, by omega⟩
      · have h1 : rmatch (opt_reps .digit (n + 1)) (c :: t) =
            rmatch (opt_reps .digit n) (c :: t) := by
          simp [opt_reps, rmatch, hd]
        rw [h1, ih]
        simp [all_digits, List.all_cons, hd]

theorem seq_eos_ne_nil (a : RE) (cs : List Char) :
    rmatch (.seq a .eos) cs ≠ [] ↔ [] ∈ rmatch a cs := by
  constructor
  · intro h
    obtain ⟨y, hy⟩ := List.exists_mem_of_ne_nil _ h
    obtain ⟨x, hx, hyx⟩ := List.mem_flatMap.mp hy
    have : x = [] := by
      by_contra hne
      simp [rmatch, hne] at hyx
    rw [this] at hx
    exact hx
  · intro h
    intro hnil
    have : ([] : List Char) ∈ rmatch (RE.seq a .eos) cs := by
      refine List.mem_flatMap.mpr ⟨[], h, ?_⟩
      simp [rmatch]
    rw [hnil] at this
    simp at this

theorem nil_mem_digit_range (lo extra : Nat) (cs : List Char) :
    [] ∈ rmatch (digit_range lo extra) cs ↔
      (all_digits cs = true ∧ lo ≤ cs.length ∧ cs.length ≤ lo + extra) := by
  simp only [digit_range, rmatch, List.mem_flatMap, rmatch_reps_digit]
  by_cases hc : (cs.take lo).all (fun c => c.isDigit) = true ∧ lo ≤ cs.length
  · rw [if_pos hc]
    simp only [List.mem_singleton]
    constructor
    · rintro ⟨x, hx, hmem⟩
      subst hx
      obtain ⟨ha, hl⟩ := (nil_mem_opt_reps_digit extra (cs.drop lo)).mp hmem
      refine ⟨?_, hc.2, ?_⟩
      · rw [← List.take_append_drop lo cs]
        simp only [all_digits, List.all_append, Bool.and_eq_true]
        exact ⟨hc.1, ha⟩
      · have := List.length_drop lo cs
        omega
    · rintro ⟨ha, hlo, hhi⟩
      refine ⟨cs.drop lo, rfl, (nil_mem_opt_reps_digit extra (cs.drop lo)).mpr ⟨?_, ?_⟩⟩
      · simp only [all_digits, List.all_eq_true] at ha ⊢
        exact fun c hcm => ha c (List.mem_of_mem_drop hcm)
      · have := List.length_drop lo cs
        omega
  · rw [if_neg hc]
    simp only [List.not_mem_nil, false_and, exists_false, false_iff]
    rintro ⟨ha, hlo, hhi⟩
    apply hc
    constructor
    · simp only [all_digits, List.all_eq_true] at ha
      simp only [List.all_eq_true]
      exact fun c hcm => ha c (List.mem_of_mem_take hcm)
    · exact hlo

theorem digits_9_15_iff (cs : List Char) :
    digits_9_15 cs = true ↔
      (all_digits cs = true ∧ 9 ≤ cs.length ∧ cs.length ≤ 15) := by
  simp [digits_9_15, Bool.and_eq_true, decide_eq_true_eq, and_assoc]

theorem k_ne_nil (cs : List Char) :
    rmatch (.seq (digit_range 9 6) .eos) cs ≠ [] ↔ digits_9_15 cs = true := by
  rw [seq_eos_ne_nil, nil_mem_digit_range, digits_9_15_iff]

theorem flatMap_ne_nil_iff {α β : Type} {l : List α} {f : α → List β} :
    l.flatMap f ≠ [] ↔ ∃ x ∈ l, f x ≠ [] := by
  constructor
  · intro h
    obtain ⟨y, hy⟩ := List.exists_mem_of_ne_nil _ h
    obtain ⟨x, hx, hyx⟩ := List.mem_flatMap.mp hy
    exact ⟨x, hx, List.ne_nil_of_mem hyx⟩
  · rintro ⟨x, hx, hfx⟩
    obtain ⟨y, hy⟩ := List.exists_mem_of_ne_nil _ hfx
    exact List.ne_nil_of_mem (List.mem_flatMap.mpr ⟨x, hx, hy⟩)

theorem opt1_ne_nil (cs : List Char) :
    rmatch (.seq (.opt (.lit '1')) (.seq (digit_range 9 6) .eos)) cs ≠ [] ↔
      opt1_digits cs = true := by
  rw [show rmatch (.seq (.opt (.lit '1')) (.seq (digit_range 9 6) .eos)) cs =
      (rmatch (.lit '1') cs ++ [cs]).flatMap
        (rmatch (.seq (digit_range 9 6) .eos)) from rfl,
    flatMap_ne_nil_iff]
  cases cs with
  | nil =>
    have hlit : rmatch (.lit '1') [] = [] := rfl
    rw [hlit, List.nil_append]
    simp only [List.mem_singleton, exists_eq_left, k_ne_nil]
    simp [opt1_digits, digits_9_15, all_digits]
  | cons c t =>
    by_cases h1 : c = '1'
    · subst h1
      have hlit : rmatch (.lit '1') ('1' :: t) = [t] := by
        simp [rmatch]
      rw [hlit, List.cons_append, List.nil_append]
      simp only [List.mem_cons, List.mem_singleton, List.not_mem_nil, or_false,
        exists_eq_or_imp, exists_eq_left, k_ne_nil]
      simp only [opt1_digits, Bool.or_eq_true, Bool.and_eq_true, decide_eq_true_eq]
      constructor
      · rintro (h | h)
        · exact Or.inr ⟨trivial, h⟩
        · exact Or.inl h
      · rintro (h | ⟨-, h⟩)
        · exact Or.inr h
        · exact Or.inl h
    · have hlit : rmatch (.lit '1') (c :: t) = [] := by
        simp [rmatch, h1]
      rw [hlit, List.nil_append]
      simp [k_ne_nil, opt1_digits, h1]

theorem intl_ne_nil (cs : List Char) :
    rmatch (.seq (.opt (.lit '+'))
        (.seq (.opt (.lit '1')) (.seq (digit_range 9 6) .eos))) cs ≠ [] ↔
      code_intl cs = true := by
  rw [show rmatch (.seq (.opt (.lit '+'))
        (.seq (.opt (.lit '1')) (.seq (digit_range 9 6) .eos))) cs =
      (rmatch (.lit '+') cs ++ [cs]).flatMap
        (rmatch (.seq (.opt (.lit '1')) (.seq (digit_range 9 6) .eos))) from rfl,
    flatMap_ne_nil_iff]
  cases cs with
  | nil =>
    have hlit : rmatch (.lit '+') [] = [] := rfl
    rw [hlit, List.nil_append]
    simp only [List.mem_singleton, exists_eq_left, opt1_ne_nil]
    simp [code_intl]
  | cons c t =>
    by_cases hp : c = '+'
    · subst hp
      have hlit : rmatch (.lit '+') ('+' :: t) = [t] := by
        simp [rmatch]
      rw [hlit, List.cons_append, List.nil_append]
      simp only [List.mem_cons, List.mem_singleton, List.not_mem_nil, or_false,
        exists_eq_or_imp, exists_eq_left, opt1_ne_nil]
      simp only [code_intl, Bool.or_eq_true, Bool.and_eq_true, decide_eq_true_eq]
      constructor
      · rintro (h | h)
        · exact Or.inr ⟨trivial, h⟩
        · exact Or.inl h
      · rintro (h | ⟨-, h⟩)
        · exact Or.inr h
        · exact Or.inl h
    · have hlit : rmatch (.lit '+') (c :: t) = [] := by
        simp [rmatch, hp]
      rw [hlit, List.nil_append]
      simp [opt1_ne_nil, code_intl, hp]

theorem seq_lit_ne_nil (c : Char) (r : RE) (y : List Char) :
    rmatch (.seq (.lit c) r) y ≠ [] ↔ ∃ t, y = c :: t ∧ rmatch r t ≠ [] := by
  rw [show rmatch (.seq (.lit c) r) y = (rmatch (.lit c) y).flatMap (rmatch r) from rfl,
    flatMap_ne_nil_iff]
  cases y with
  | nil => simp [rmatch]
  | cons d t =>
    by_cases hd : d = c
    · subst hd
      simp [rmatch]
    · simp [rmatch, hd]

theorem seq_reps_ne_nil (n : Nat) (r : RE) (y : List Char) :
    rmatch (.seq (reps .digit n) r) y ≠ [] ↔
      ((y.take n).all (fun c => c.isDigit) = true ∧ n ≤ y.length
        ∧ rmatch r (y.drop n) ≠ []) := by
  rw [show rmatch (.seq (reps .digit n) r) y = (rmatch (reps .digit n) y).flatMap (rmatch r)
      from rfl,
    flatMap_ne_nil_iff, rmatch_reps_digit]
  by_cases hc : (y.take n).all (fun c => c.isDigit) = true ∧ n ≤ y.length
  · rw [if_pos hc]
    simp [hc.1, hc.2]
  · rw [if_neg hc]
    simp only [List.not_mem_nil, false_and, exists_false, false_iff]
    intro hcon
    exact hc ⟨hcon.1, hcon.2.1⟩

theorem reps4_eos_ne_nil (y : List Char) :
    rmatch (.seq (reps .digit 4) .eos) y ≠ [] ↔
      (all_digits y = true ∧ y.length = 4) := by
  rw [seq_eos_ne_nil, rmatch_reps_digit]
  by_cases hc : (y.take 4).all (fun c => c.isDigit) = true ∧ 4 ≤ y.length
  · rw [if_pos hc]
    simp only [List.mem_singleton]
    constructor
    · intro h
      have hl := congrArg List.length h
      simp only [List.length_nil, List.length_drop] at hl
      have hlen : y.length = 4 := by omega
      have hy : y.take 4 = y := by
        rw [← hlen]
        exact List.take_length y
      refine ⟨?_, hlen⟩
      rw [all_digits, ← hy]
      exact hc.1
    · rintro ⟨ha, hlen⟩
      have : y.drop 4 = [] := by
        apply List.eq_nil_of_length_eq_zero
        simp [List.length_drop, hlen]
      rw [this]
  · rw [if_neg hc]
    simp only [List.not_mem_nil, false_iff]
    rintro ⟨ha, hlen⟩
    apply hc
    constructor
    · simp only [List.all_eq_true]
      simp only [all_digits, List.all_eq_true] at ha
      exact fun c hcm => ha c (List.mem_of_mem_take hcm)
    · omega

theorem eos_ne_nil (y : List Char) : rmatch .eos y ≠ [] ↔ y = [] := by
  by_cases h : y = [] <;> simp [rmatch, h]

set_option maxHeartbeats 2000000 in
theorem local_ne_nil (cs : List Char) :
    rmatch (.seq (reps .digit 3)
      (.seq (.lit '-') (.seq (reps .digit 3)
        (.seq (.lit '-') (.seq (reps .digit 4) .eos))))) cs ≠ [] ↔
      local_shape cs = true := by
  simp only [seq_reps_ne_nil, seq_lit_ne_nil, eos_ne_nil]
  rcases cs with _|⟨a,_|⟨b,_|⟨c,_|⟨d1,_|⟨d,_|⟨e,_|⟨f,_|⟨d2,_|⟨g,_|⟨h2,_|⟨i,_|⟨j,_|⟨x,rest⟩⟩⟩⟩⟩⟩⟩⟩⟩⟩⟩⟩⟩
  all_goals
    simp [local_shape, all_digits]
  constructor
  · rintro ⟨⟨ha, hb, hc⟩, t, ⟨hd1, ht⟩, h1, h2, t1, ht1, h3, h4, h5⟩
    subst ht
    subst hd1
    simp only [List.drop_succ_cons, List.drop_zero] at ht1
    injection ht1 with hd2 ht1x
    subst hd2
    subst ht1x
    simp at h1 h3
    simp_all
  · rintro ⟨⟨hd1, hd2⟩, ha, hb, hc, hd, he, hf, hg, hh, hi, hj⟩
    subst hd1
    subst hd2
    refine ⟨⟨ha, hb, hc⟩, [d, e, f, '-', g, h2, i, j], ⟨rfl, rfl⟩, ?_, by simp,
      [g, h2, i, j], by simp, ?_, by simp, by simp⟩
    · simp [hd, he, hf]
    · simp [hg, hh, hi, hj]

theorem phone_regex_accepts (cs : List Char) :
    rmatch phone_regex cs ≠ [] ↔ (code_intl cs = true ∨ local_shape cs = true) := by
  have h : rmatch phone_regex cs =
      rmatch (.seq (.opt (.lit '+'))
          (.seq (.opt (.lit '1')) (.seq (digit_range 9 6) .eos))) cs
        ++ rmatch (.seq (reps .digit 3) (.seq (.lit '-') (.seq (reps .digit 3)
            (.seq (.lit '-') (.seq (reps .digit 4) .eos))))) cs := rfl
  rw [h, ne_eq, List.append_eq_nil, not_and_or, ← ne_eq, ← ne_eq]
  exact or_congr (intl_ne_nil cs) (local_ne_nil cs)

/-- C3 (amended): the phone validation used by customer creation accepts
a string iff it is empty/absent, or lies in the language of the code's
pattern `^\+?1?\d{9,15}$` (an optional `+`, an optional literal `1`, then
9 to 15 digits), or in the language of `^\d{3}-\d{3}-\d{4}$` — not the
spec's `^\+\d{7,15}$` international shape. -/
theorem phone_validation_characterization :
    (∀ s : String, validate_phone s = (code_intl s.data || local_shape s.data))
    ∧ (∀ s : String, phone_format_ok (some s) = (s.isEmpty || validate_phone s))
    ∧ phone_format_ok none = true := by
  refine ⟨fun s => ?_, fun s => ?_, rfl⟩
  · have h1 : validate_phone s = true ↔ (code_intl s.data || local_shape s.data) = true := by
      rw [Bool.or_eq_true, ← phone_regex_accepts]
      simp [validate_phone, re_match]
    cases hv : validate_phone s with
    | false =>
      cases hb : code_intl s.data || local_shape s.data with
      | false => rfl
      | true => exact absurd (h1.mpr hb) (by simp [hv])
    | true =>
      cases hb : code_intl s.data || local_shape s.data with
      | false => exact absurd (h1.mp hv) (by simp [hb])
      | true => rfl
  · by_cases he : s.isEmpty
    · simp [phone_format_ok, he]
    · simp [phone_format_ok, he]

/-- C3: the claimed shape disagrees with the code's pattern in both
directions — `"+1234567"` (`+` followed by 7 digits) matches the spec's
`^\+\d{7,15}$` but is rejected by the code, while `"123456789"` (9 digits,
no `+`) matches neither claimed shape but is accepted by the code. -/
theorem phone_shape_counterexample :
    phone_format_ok (some "+1234567") = false
    ∧ spec_phone_valid "+1234567" = true
    ∧ phone_format_ok (some "123456789") = true
    ∧ spec_phone_valid "123456789" = false := by
  decide
